import Mathlib

/-!
Verification of the Free Sleep Pod Home Assistant integration
(`custom_components/free_sleep`): a shallow embedding of the device data
model, the snapshot aggregator (`pod.py`), the entity value derivations
(`binary_sensor.py`, `number.py`), the config-flow validation
(`config_flow.py`) and the entry unload logic (`__init__.py`), together
with theorems settling the specified properties.
-/

namespace FreeSleep

/-- JSON values as exchanged with the device API.  Numbers are modelled as
integers (all numeric fields appearing in the claims are integral). -/
inductive Json where
  | null
  | bool (b : Bool)
  | num (n : Int)
  | str (s : String)
  | arr (items : List Json)
  | obj (fields : List (String × Json))

/-- Python dictionary subscription `d[key]`: `none` models a raised
`KeyError` (or `TypeError` on a non-dict), `some v` a successful lookup. -/
def Json.get : Json → String → Option Json
  | .obj fields, key => fields.lookup key
  | _, _ => none

/-- The key list of a JSON object (empty for non-objects). -/
def Json.keys : Json → List String
  | .obj fields => fields.map Prod.fst
  | _ => []

/-- Python truthiness of a JSON value, as used by `not x` in
`binary_sensor.py`. -/
def Json.truthy : Json → Bool
  | .null => false
  | .bool b => b
  | .num n => n != 0
  | .str s => !s.isEmpty
  | .arr items => !items.isEmpty
  | .obj fields => !fields.isEmpty

/-- Replace the binding of `key` in an association list (as Python dict
assignment does), appending when absent. -/
def setField : List (String × Json) → String → Json → List (String × Json)
  | [], key, value => [(key, value)]
  | (k, v) :: rest, key, value =>
    if k == key then (key, value) :: rest
    else (k, v) :: setField rest key value

/-- Python dictionary assignment `d[key] = value` (identity on
non-objects, where Python would raise). -/
def Json.setKey : Json → String → Json → Json
  | .obj fields, key, value => .obj (setField fields key value)
  | j, _, _ => j

/-- `PodState` from `pod.py`: the snapshot assembled by
`Pod.async_fetch_state`, with `status`, `settings` and per-side
`vitals`. -/
structure PodState where
  status : Json
  settings : Json
  vitals : Json

/-- `Side.get_side_data` from `pod.py`: per-side slice of a snapshot by
direct key lookup, `{'status': data['status'][side], 'settings':
data['settings'][side], 'vitals': data['vitals'][side]}`.  A missing key
raises (`none`). -/
def Side.get_side_data (side : String) (data : PodState) : Option Json := do
  let st ← data.status.get side
  let se ← data.settings.get side
  let vi ← data.vitals.get side
  pure (Json.obj [("status", st), ("settings", se), ("vitals", vi)])

/-- `Pod.async_fetch_state` from `pod.py`: gather the four constituent
fetches (device status, settings, vitals left, vitals right), each
modelled by its result, and assemble the snapshot; any constituent
failure fails the aggregate and no snapshot is produced. -/
def Pod.async_fetch_state {ε : Type} (status settings vitals_left vitals_right : Except ε Json) :
    Except ε PodState := do
  let st ← status
  let se ← settings
  let vl ← vitals_left
  let vr ← vitals_right
  pure ⟨st, se, Json.obj [("left", vl), ("right", vr)]⟩

/-- `get_value` of the Priming binary sensor (`binary_sensor.py`,
`POD_BINARY_SENSORS`): `data['status']['isPriming']`. -/
def priming_get_value (data : Json) : Option Json :=
  (data.get "status").bind (fun st => st.get "isPriming")

/-- `get_value` of the Water Level problem binary sensor
(`binary_sensor.py`, `POD_BINARY_SENSORS`): `not
data['status']['waterLevel']`, Python logical negation of the raw
value's truthiness. -/
def water_level_get_value (data : Json) : Option Bool :=
  ((data.get "status").bind (fun st => st.get "waterLevel")).map (fun v => !v.truthy)

/-- `get_value` of the per-side Presence binary sensor
(`binary_sensor.py`, `POD_SIDE_BINARY_SENSORS`):
`data['presence']['present']`, applied to the side data produced by
`Side.get_side_data`. -/
def presence_get_value (data : Json) : Option Json :=
  (data.get "presence").bind (fun p => p.get "present")

/-- `get_value` of the LED Brightness number (`number.py`,
`POD_SENSORS`): `data['status']['settings']['ledBrightness']`. -/
def ledBrightness_get_value (data : Json) : Option Json :=
  ((data.get "status").bind (fun st => st.get "settings")).bind
    (fun se => se.get "ledBrightness")

/-- Observable effects of the mutation path: client calls issued by the
API facade and refresh requests handed to the coordinator. -/
inductive Event where
  | apiSetLedBrightness (brightness : Int)
  | refreshRequest

/-- The coordinator-visible state: the cached snapshot
(`coordinator.data`) plus the log of effects issued so far. -/
structure CoordinatorState where
  data : Json
  events : List Event

/-- `Pod.set_led_brightness` from `pod.py`: forwards to
`api.set_led_brightness(brightness)` — one client call, no access to the
cached snapshot. -/
def Pod.set_led_brightness (brightness : Int) (s : CoordinatorState) : CoordinatorState :=
  { s with events := s.events ++ [Event.apiSetLedBrightness brightness] }

/-- `FreeSleepNumber.async_set_native_value` from `number.py`: call the
description's `set_value` (which is `pod.set_led_brightness`) and then
`coordinator.async_request_refresh()`. -/
def FreeSleepNumber.async_set_native_value (value : Int) (s : CoordinatorState) :
    CoordinatorState :=
  let s1 := Pod.set_led_brightness value s
  { s1 with events := s1.events ++ [Event.refreshRequest] }

/-- A completed coordinator refresh replaces the cached snapshot
wholesale with the freshly fetched one (Home Assistant
`DataUpdateCoordinator` semantics). -/
def Coordinator.apply_refresh (fresh : Json) (s : CoordinatorState) : CoordinatorState :=
  { s with data := fresh }

/-- An HTTP request issued by the device client. -/
structure HttpRequest where
  method : String
  path : String
  body : Json

/-- `DEVICE_STATUS_ENDPOINT` from `constants.py`. -/
def DEVICE_STATUS_ENDPOINT : String := "/api/deviceStatus"

/-- Modelled from the spec: the jobs endpoint constant (`JOBS_ENDPOINT`)
is referenced by the tests but absent from `constants.py`; the spec's
endpoint table names it only "(jobs endpoint)", so the path is a
symbolic placeholder. -/
def JOBS_ENDPOINT : String := "/api/jobs"

/-- Modelled from the spec: `Pod.prime` is called by `button.py` and the
tests but absent from `pod.py`; per spec 4.1/6 and `test_button_prime`
it POSTs the partial status body `{"isPriming": true}` to the device
status endpoint. -/
def Pod.prime : List HttpRequest :=
  [⟨"POST", DEVICE_STATUS_ENDPOINT, Json.obj [("isPriming", Json.bool true)]⟩]

/-- Modelled from the spec: `Pod.reboot` is called by `button.py` and the
tests but absent from `pod.py`; per spec 4.1/6 and `test_button_reboot`
it POSTs the command body `["reboot"]` to the jobs endpoint. -/
def Pod.reboot : List HttpRequest :=
  [⟨"POST", JOBS_ENDPOINT, Json.arr [Json.str "reboot"]⟩]

/-- Button entity description from `button.py`: the `handle` callable is
modelled by the client calls it issues. -/
structure FreeSleepButtonDescription where
  name : String
  key : String
  icon : String
  handle : Option (List HttpRequest)

/-- `POD_BUTTONS` from `button.py`. -/
def POD_BUTTONS : List FreeSleepButtonDescription :=
  [⟨"Prime", "prime", "mdi:water-pump", some Pod.prime⟩,
   ⟨"Reboot", "reboot", "mdi:restart", some Pod.reboot⟩]

/-- `FreeSleepButton.async_press` from `button.py`: invoke the
description's `handle` when present, else do nothing. -/
def FreeSleepButton.async_press (d : FreeSleepButtonDescription) : List HttpRequest :=
  match d.handle with
  | some requests => requests
  | none => []

/-- `validate_connection` from `config_flow.py`: fetch the device status
and return `status['hubVersion']`; any exception inside the `try`
(transport failure or the `'hubVersion'` key lookup) is re-raised as
`ValueError('cannot_connect')`.  The fetch is modelled by its result. -/
def validate_connection (fetch_result : Except String Json) : Except String Json :=
  match fetch_result with
  | .error _ => .error "cannot_connect"
  | .ok status =>
    match status.get "hubVersion" with
    | some name => .ok name
    | none => .error "cannot_connect"

/-- Python `str.startswith`: character-wise comparison of the candidate
scheme against the start of the string. -/
def py_startswith (s pre : String) : Bool :=
  pre.toList.isPrefixOf s.toList

/-- `validate_setup` from `config_flow.py`: reject a host URL that does
not start with `http://` or `https://` with `ValueError('invalid_url')`
before any network call; otherwise validate the connection and return
the device name together with the user input. -/
def validate_setup (url : String) (fetch_result : Except String Json) :
    Except String (Json × String) :=
  if py_startswith url "http://" || py_startswith url "https://" then
    (validate_connection fetch_result).map (fun name => (name, url))
  else
    .error "invalid_url"

/-- Python `dict.pop(key)` on an association list: remove the binding of
`key`, `none` modelling the `KeyError` raised when the key is absent. -/
def dict_pop {α : Type} (reg : List (String × α)) (key : String) :
    Option (List (String × α)) :=
  match reg with
  | [] => none
  | (k, v) :: rest =>
    if k == key then some rest
    else (dict_pop rest key).map (fun r => (k, v) :: r)

/-- `async_unload_entry` from `__init__.py`: unload the platforms
(modelled by the boolean result `unload_ok`); pop the entry from
`hass.data[DOMAIN]` exactly when unloading succeeded; return
`unload_ok`.  The result pairs the returned boolean with the registry
after the call (`none` models the `KeyError` from `pop`). -/
def async_unload_entry {α : Type} (unload_ok : Bool) (reg : List (String × α))
    (entry_id : String) : Option (Bool × List (String × α)) :=
  if unload_ok then
    (dict_pop reg entry_id).map (fun r => (true, r))
  else
    some (false, reg)

/-- A concrete device status document, mirroring the repository's mock
fixture (`tests/conftest.py`, `mock_device_status`). -/
def sample_status : Json := Json.obj
  [("left", Json.obj [("isOn", Json.bool true), ("targetTemperatureF", Json.num 75)]),
   ("right", Json.obj [("isOn", Json.bool false), ("targetTemperatureF", Json.num 77)]),
   ("hubVersion", Json.str "Pod 4"),
   ("waterLevel", Json.str "true"),
   ("isPriming", Json.bool false),
   ("settings", Json.obj [("ledBrightness", Json.num 0)])]

/-- A concrete settings document with per-side sections. -/
def sample_settings : Json := Json.obj
  [("left", Json.obj [("awayMode", Json.bool false)]),
   ("right", Json.obj [("awayMode", Json.bool false)])]

/-- A concrete per-side vitals document. -/
def sample_vitals_side : Json :=
  Json.obj [("heartRate", Json.num 60), ("respirationRate", Json.num 15)]

/-- A concrete snapshot as assembled by `Pod.async_fetch_state`. -/
def sample_state : PodState :=
  ⟨sample_status, sample_settings,
   Json.obj [("left", sample_vitals_side), ("right", sample_vitals_side)]⟩

/-- The per-side slice of `sample_state` for the left side. -/
def sample_left_side_data : Json := Json.obj
  [("status", Json.obj [("isOn", Json.bool true), ("targetTemperatureF", Json.num 75)]),
   ("settings", Json.obj [("awayMode", Json.bool false)]),
   ("vitals", sample_vitals_side)]

/-- C1: for every snapshot and side whose key is present in all three
sections, `get_side_data` returns exactly the dictionary whose
`status`/`settings`/`vitals` entries are the corresponding per-side
slices of the snapshot, with no other keys. -/
theorem get_side_data_exact_slices (side : String) (data : PodState) (st se vi : Json)
    (hst : data.status.get side = some st) (hse : data.settings.get side = some se)
    (hvi : data.vitals.get side = some vi) :
    ∃ d, Side.get_side_data side data = some d ∧
      d.get "status" = some st ∧ d.get "settings" = some se ∧
      d.get "vitals" = some vi ∧ d.keys = ["status", "settings", "vitals"] := by
  refine ⟨Json.obj [("status", st), ("settings", se), ("vitals", vi)], ?_, rfl, rfl, rfl, rfl⟩
  simp [Side.get_side_data, hst, hse, hvi]

/-- Witness for C1: the left side of the sample snapshot. -/
theorem get_side_data_exact_slices_witness :
    ∃ d, Side.get_side_data "left" sample_state = some d ∧
      d.get "status" =
        some (Json.obj [("isOn", Json.bool true), ("targetTemperatureF", Json.num 75)]) ∧
      d.get "settings" = some (Json.obj [("awayMode", Json.bool false)]) ∧
      d.get "vitals" = some sample_vitals_side ∧
      d.keys = ["status", "settings", "vitals"] :=
  get_side_data_exact_slices "left" sample_state _ _ _ rfl rfl rfl

/-- C3: when the side key is absent from `status`, `settings` or
`vitals`, `get_side_data` fails (raises) instead of defaulting. -/
theorem get_side_data_missing_side_errors (side : String) (data : PodState)
    (h : data.status.get side = none ∨ data.settings.get side = none ∨
      data.vitals.get side = none) :
    Side.get_side_data side data = none := by
  simp only [Side.get_side_data]
  rcases h with h | h | h
  · simp [h]
  · cases hst : data.status.get side <;> simp [h]
  · cases hst : data.status.get side <;> cases hse : data.settings.get side <;> simp [hse, h]

/-- Witness for C3: the invalid side value `middle` on the sample
snapshot. -/
theorem get_side_data_missing_side_errors_witness :
    Side.get_side_data "middle" sample_state = none :=
  get_side_data_missing_side_errors "middle" sample_state (Or.inl rfl)

/-- C4 (failing input): a successful poll assembles a snapshot with only
`status`, `settings` and `vitals`; the per-side data handed to the
presence indicator has no `presence` entry, so
`data['presence']['present']` fails. -/
theorem snapshot_side_data_has_no_presence :
    Pod.async_fetch_state (ε := String) (Except.ok sample_status)
        (Except.ok sample_settings) (Except.ok sample_vitals_side)
        (Except.ok sample_vitals_side) = Except.ok sample_state ∧
    Side.get_side_data "left" sample_state = some sample_left_side_data ∧
    sample_left_side_data.keys = ["status", "settings", "vitals"] ∧
    sample_left_side_data.get "presence" = none ∧
    presence_get_value sample_left_side_data = none :=
  ⟨rfl, rfl, rfl, rfl, rfl⟩

/-- C2: aggregation is all-or-nothing.  A snapshot is returned exactly
when all four constituent fetches succeed, and it is assembled from
their results; when any constituent fails, the aggregate fails with one
of the constituent errors and no (partial) snapshot is returned. -/
theorem async_fetch_state_all_or_nothing {ε : Type}
    (status settings vitals_left vitals_right : Except ε Json) :
    (∀ s, Pod.async_fetch_state status settings vitals_left vitals_right = .ok s →
      ∃ a b c d, status = .ok a ∧ settings = .ok b ∧ vitals_left = .ok c ∧
        vitals_right = .ok d ∧
        s = ⟨a, b, Json.obj [("left", c), ("right", d)]⟩) ∧
    (∀ e, (status = .error e ∨ settings = .error e ∨ vitals_left = .error e ∨
        vitals_right = .error e) →
      ∃ f, Pod.async_fetch_state status settings vitals_left vitals_right = .error f ∧
        (status = .error f ∨ settings = .error f ∨ vitals_left = .error f ∨
          vitals_right = .error f)) := by
  constructor
  · intro s hs
    cases status <;> cases settings <;> cases vitals_left <;> cases vitals_right <;>
      first
        | exact ⟨_, _, _, _, rfl, rfl, rfl, rfl, by injection hs with h; exact h.symm⟩
        | exact nomatch hs
  · intro e he
    cases status <;> cases settings <;> cases vitals_left <;> cases vitals_right <;>
      first
        | exact ⟨_, rfl, by simp⟩
        | (rcases he with he | he | he | he <;> exact nomatch he)

/-- Witness for C2: a successful aggregation of four concrete fetches,
and a failing aggregation where the left vitals fetch fails. -/
theorem async_fetch_state_all_or_nothing_witness :
    (∃ a b c d, (Except.ok sample_status : Except String Json) = .ok a ∧
      (Except.ok sample_settings : Except String Json) = .ok b ∧
      (Except.ok sample_vitals_side : Except String Json) = .ok c ∧
      (Except.ok sample_vitals_side : Except String Json) = .ok d ∧
      sample_state = ⟨a, b, Json.obj [("left", c), ("right", d)]⟩) ∧
    (∃ f, Pod.async_fetch_state (Except.ok sample_status) (Except.ok sample_settings)
        (Except.error "unreachable") (Except.ok sample_vitals_side) =
          Except.error f ∧
      ((Except.ok sample_status : Except String Json) = .error f ∨
        (Except.ok sample_settings : Except String Json) = .error f ∨
        (Except.error "unreachable" : Except String Json) = .error f ∨
        (Except.ok sample_vitals_side : Except String Json) = .error f)) :=
  ⟨(async_fetch_state_all_or_nothing (Except.ok sample_status) (Except.ok sample_settings)
      (Except.ok sample_vitals_side) (Except.ok sample_vitals_side)).1 sample_state rfl,
   (async_fetch_state_all_or_nothing (Except.ok sample_status) (Except.ok sample_settings)
      (Except.error "unreachable") (Except.ok sample_vitals_side)).2 "unreachable"
      (Or.inr (Or.inr (Or.inl rfl)))⟩

/-- The mocked device status of the C6 scenario:
`{"waterLevel": "true", "isPriming": false}`. -/
def c6_status : Json :=
  Json.obj [("waterLevel", Json.str "true"), ("isPriming", Json.bool false)]

/-- The C6 status after the in-place update `status['isPriming'] = True`. -/
def c6_status_updated : Json := Json.setKey c6_status "isPriming" (Json.bool true)

/-- C5: `set_led_brightness` issues exactly one client call and leaves
the cached snapshot untouched; `async_set_native_value` performs that
call and then requests a refresh, still without an optimistic local
update, and the entity's `ledBrightness` value equals `x` only once a
fresh fetch with the echoed value replaces the cache. -/
theorem set_led_brightness_no_cache_mutation (x : Int) (s : CoordinatorState) :
    (Pod.set_led_brightness x s).data = s.data ∧
    (Pod.set_led_brightness x s).events = s.events ++ [Event.apiSetLedBrightness x] ∧
    (FreeSleepNumber.async_set_native_value x s).data = s.data ∧
    (FreeSleepNumber.async_set_native_value x s).events =
      s.events ++ [Event.apiSetLedBrightness x, Event.refreshRequest] ∧
    ledBrightness_get_value (FreeSleepNumber.async_set_native_value x s).data =
      ledBrightness_get_value s.data ∧
    (∀ fresh, ledBrightness_get_value fresh = some (Json.num x) →
      ledBrightness_get_value
        (Coordinator.apply_refresh fresh (FreeSleepNumber.async_set_native_value x s)).data =
          some (Json.num x)) := by
  refine ⟨rfl, rfl, rfl, by simp [FreeSleepNumber.async_set_native_value,
    Pod.set_led_brightness], rfl, fun fresh h => h⟩

/-- Witness for C5: brightness 42 starting from the sample snapshot; the
cached value stays 0 through the mutation and becomes 42 only after the
refresh delivers the echoed status. -/
theorem set_led_brightness_no_cache_mutation_witness :
    (Pod.set_led_brightness 42 ⟨sample_status, []⟩).data = sample_status ∧
    ledBrightness_get_value
      (FreeSleepNumber.async_set_native_value 42 ⟨sample_status, []⟩).data =
        ledBrightness_get_value sample_status ∧
    ledBrightness_get_value
      (Coordinator.apply_refresh
        (Json.obj [("status", Json.obj [("settings", Json.obj [("ledBrightness", Json.num 42)])])])
        (FreeSleepNumber.async_set_native_value 42 ⟨sample_status, []⟩)).data =
      some (Json.num 42) := by
  have h := set_led_brightness_no_cache_mutation 42 ⟨sample_status, []⟩
  exact ⟨h.1, h.2.2.2.2.1, h.2.2.2.2.2
    (Json.obj [("status", Json.obj [("settings", Json.obj [("ledBrightness", Json.num 42)])])]) rfl⟩

/-- C6: with device status `{"waterLevel": "true", "isPriming": false}`
the priming and problem indicators are both off; updating only
`isPriming` to `true` turns the priming indicator on and changes nothing
else. -/
theorem priming_water_level_scenario :
    (priming_get_value (Json.obj [("status", c6_status)])).map Json.truthy = some false ∧
    water_level_get_value (Json.obj [("status", c6_status)]) = some false ∧
    (priming_get_value (Json.obj [("status", c6_status_updated)])).map Json.truthy = some true ∧
    water_level_get_value (Json.obj [("status", c6_status_updated)]) =
      water_level_get_value (Json.obj [("status", c6_status)]) ∧
    ledBrightness_get_value (Json.obj [("status", c6_status_updated)]) =
      ledBrightness_get_value (Json.obj [("status", c6_status)]) ∧
    c6_status_updated =
      Json.obj [("waterLevel", Json.str "true"), ("isPriming", Json.bool true)] :=
  ⟨rfl, rfl, rfl, rfl, rfl, rfl⟩

/-- C10: the Water Level problem indicator negates the raw value's
Python truthiness: off for every non-empty string (including
`"false"`), on exactly when the raw value is falsy. -/
theorem water_level_is_raw_truthiness_negation (data status wl : Json)
    (h1 : data.get "status" = some status) (h2 : status.get "waterLevel" = some wl) :
    water_level_get_value data = some (!wl.truthy) ∧
    (∀ s : String, wl = .str s → s ≠ "" → water_level_get_value data = some false) ∧
    (water_level_get_value data = some true ↔ wl.truthy = false) ∧
    ((wl = .bool false ∨ wl = .str "" ∨ wl = .num 0 ∨ wl = .null) →
      water_level_get_value data = some true) := by
  have hv : water_level_get_value data = some (!wl.truthy) := by
    simp [water_level_get_value, h1, h2]
  refine ⟨hv, fun s hs hne => ?_, ?_, fun hfalsy => ?_⟩
  · subst hs
    have hemp : s.isEmpty = false := by
      rcases Bool.eq_false_or_eq_true s.isEmpty with hb | hb
      · exact absurd ((String.isEmpty_iff s).mp hb) hne
      · exact hb
    simp [hv, Json.truthy, hemp]
  · rw [hv]
    constructor
    · intro h
      have := Option.some.inj h
      cases hw : wl.truthy <;> simp [hw] at this ⊢
    · intro h
      simp [h]
  · rcases hfalsy with h | h | h | h <;> subst h <;>
      simp [hv, Json.truthy, String.isEmpty_iff]

/-- Witness for C10: the string `"false"` is truthy, so the problem
indicator is off even though the value reads as semantic falsity. -/
theorem water_level_is_raw_truthiness_negation_witness :
    water_level_get_value
      (Json.obj [("status", Json.obj [("waterLevel", Json.str "false")])]) = some false :=
  ((water_level_is_raw_truthiness_negation
      (Json.obj [("status", Json.obj [("waterLevel", Json.str "false")])])
      (Json.obj [("waterLevel", Json.str "false")]) (Json.str "false")
      rfl rfl).2.1) "false" rfl (by simp)

/-- C7: pressing the Prime button issues exactly one POST of
`{"isPriming": true}` to the device status endpoint, and pressing the
Reboot button issues exactly one POST of `["reboot"]` to the jobs
endpoint. -/
theorem button_press_single_post :
    POD_BUTTONS.map FreeSleepButton.async_press =
      [[⟨"POST", DEVICE_STATUS_ENDPOINT, Json.obj [("isPriming", Json.bool true)]⟩],
       [⟨"POST", JOBS_ENDPOINT, Json.arr [Json.str "reboot"]⟩]] ∧
    POD_BUTTONS.map (fun d => (FreeSleepButton.async_press d).length) = [1, 1] :=
  ⟨rfl, rfl⟩

/-- C8 counterexample: with a well-formed URL and a fetch that SUCCEEDS
but returns a status without `hubVersion`, `validate_setup` still raises
`cannot_connect`, so the connection error is not raised exactly when the
fetch fails. -/
theorem validate_setup_cannot_connect_on_ok_fetch :
    validate_setup "http://pod.local" (Except.ok (Json.obj [])) =
      Except.error "cannot_connect" ∧
    (Except.ok (Json.obj []) : Except String Json).isOk = true :=
  ⟨rfl, rfl⟩

/-- C8 (amended): URLs without an `http://`/`https://` scheme are
rejected with `invalid_url` independently of the network; with a valid
scheme, `cannot_connect` is raised when the fetch fails or the fetched
status lacks `hubVersion`, and otherwise the `hubVersion` value is
returned together with the user input. -/
theorem validate_setup_spec (url : String) (f : Except String Json) :
    (¬(py_startswith url "http://" = true ∨ py_startswith url "https://" = true) →
      validate_setup url f = .error "invalid_url" ∧
        ∀ g, validate_setup url g = validate_setup url f) ∧
    ((py_startswith url "http://" = true ∨ py_startswith url "https://" = true) →
      (∀ e, f = .error e → validate_setup url f = .error "cannot_connect") ∧
      (∀ status, f = .ok status → status.get "hubVersion" = none →
        validate_setup url f = .error "cannot_connect") ∧
      (∀ status name, f = .ok status → status.get "hubVersion" = some name →
        validate_setup url f = .ok (name, url))) := by
  by_cases hc : py_startswith url "http://" = true ∨ py_startswith url "https://" = true
  · have hb : (py_startswith url "http://" || py_startswith url "https://") = true := by
      rcases hc with h | h <;> simp [h]
    refine ⟨fun h => absurd hc h, fun _ => ⟨?_, ?_, ?_⟩⟩
    · intro e he
      subst he
      simp [validate_setup, hb, validate_connection, Except.map]
    · intro status hf hnone
      subst hf
      simp [validate_setup, hb, validate_connection, hnone, Except.map]
    · intro status name hf hsome
      subst hf
      simp [validate_setup, hb, validate_connection, hsome, Except.map]
  · have hb : (py_startswith url "http://" || py_startswith url "https://") = false := by
      push_neg at hc
      simp [hc.1, hc.2]
    exact ⟨fun _ => ⟨by simp [validate_setup, hb], fun g => by simp [validate_setup, hb]⟩,
      fun h => absurd h hc⟩

/-- Witness for C8 (amended): a schemeless URL is rejected without
consulting the fetch, and a good fetch with a `hubVersion` yields the
device name. -/
theorem validate_setup_spec_witness :
    validate_setup "pod.local" (Except.ok sample_status) = Except.error "invalid_url" ∧
    validate_setup "http://pod.local" (Except.ok sample_status) =
      Except.ok (Json.str "Pod 4", "http://pod.local") :=
  ⟨((validate_setup_spec "pod.local" (Except.ok sample_status)).1 (by decide)).1,
   ((validate_setup_spec "http://pod.local" (Except.ok sample_status)).2
      (Or.inl (by decide))).2.2 sample_status (Json.str "Pod 4") rfl rfl⟩

/-- A key absent from an association list looks up to nothing. -/
theorem lookup_eq_none_of_not_mem {α : Type} (l : List (String × α)) (k : String)
    (h : k ∉ l.map Prod.fst) : l.lookup k = none := by
  induction l with
  | nil => rfl
  | cons p rest ih =>
    obtain ⟨k0, v0⟩ := p
    simp only [List.map_cons, List.mem_cons, not_or] at h
    have hk : (k == k0) = false := beq_eq_false_iff_ne.mpr h.1
    simp [List.lookup, hk, ih h.2]

/-- `dict_pop` removes exactly the popped key: afterwards that key is
absent (given unique keys) and every other key looks up unchanged. -/
theorem dict_pop_spec {α : Type} (reg : List (String × α)) (key : String)
    (hnd : (reg.map Prod.fst).Nodup) (r : List (String × α))
    (h : dict_pop reg key = some r) :
    r.lookup key = none ∧ ∀ k, k ≠ key → r.lookup k = reg.lookup k := by
  induction reg generalizing r with
  | nil => exact nomatch h
  | cons p rest ih =>
    obtain ⟨k0, v0⟩ := p
    simp only [List.map_cons, List.nodup_cons] at hnd
    simp only [dict_pop] at h
    by_cases hk : (k0 == key) = true
    · have hkey : k0 = key := eq_of_beq hk
      rw [if_pos hk] at h
      have hr : rest = r := Option.some.inj h
      subst hr
      subst hkey
      refine ⟨lookup_eq_none_of_not_mem rest k0 hnd.1, fun k hne => ?_⟩
      have : (k == k0) = false := beq_eq_false_iff_ne.mpr hne
      simp [List.lookup, this]
    · rw [if_neg hk] at h
      obtain ⟨r0, hr0, rfl⟩ := Option.map_eq_some'.mp h
      obtain ⟨ih1, ih2⟩ := ih hnd.2 r0 hr0
      have hkne : (key == k0) = false := by
        refine beq_eq_false_iff_ne.mpr fun hkeq => ?_
        exact hk (by simp [hkeq])
      refine ⟨by simp [List.lookup, hkne, ih1], fun k hne => ?_⟩
      by_cases hkk : (k == k0) = true
      · simp [List.lookup, hkk]
      · have hkk0 : (k == k0) = false := by
          cases hb : (k == k0)
          · rfl
          · exact absurd hb hkk
        simp [List.lookup, hkk0, ih2 k hne]

/-- `dict_pop` succeeds on every key that is present. -/
theorem dict_pop_isSome_of_lookup {α : Type} (reg : List (String × α)) (key : String)
    (h : (reg.lookup key).isSome = true) : (dict_pop reg key).isSome = true := by
  induction reg with
  | nil => exact nomatch h
  | cons p rest ih =>
    obtain ⟨k0, v0⟩ := p
    by_cases hk : (key == k0) = true
    · have : (k0 == key) = true := by
        have := eq_of_beq hk
        simp [this]
      simp [dict_pop, this]
    · have hkf : (key == k0) = false := by
        cases hb : (key == k0)
        · rfl
        · exact absurd hb hk
      have hk0f : (k0 == key) = false := by
        refine beq_eq_false_iff_ne.mpr fun he => ?_
        exact hk (by simp [he])
      simp only [List.lookup, hkf] at h
      have := ih h
      simp [dict_pop, hk0f, Option.isSome_map', this]

/-- C9: unloading is atomic with respect to the instance registry:
on successful platform unload the entry is popped (and nothing else
changes), on failure the registry is untouched and `False` is
returned. -/
theorem async_unload_entry_atomic {α : Type} (reg : List (String × α)) (entry_id : String)
    (hnd : (reg.map Prod.fst).Nodup) (hmem : (reg.lookup entry_id).isSome = true) :
    (∃ r, async_unload_entry true reg entry_id = some (true, r) ∧
      r.lookup entry_id = none ∧ ∀ k, k ≠ entry_id → r.lookup k = reg.lookup k) ∧
    async_unload_entry false reg entry_id = some (false, reg) := by
  constructor
  · obtain ⟨r, hr⟩ := Option.isSome_iff_exists.mp (dict_pop_isSome_of_lookup reg entry_id hmem)
    obtain ⟨h1, h2⟩ := dict_pop_spec reg entry_id hnd r hr
    exact ⟨r, by simp [async_unload_entry, hr], h1, h2⟩
  · rfl

/-- Witness for C9: a two-entry registry, unloading entry `a`. -/
theorem async_unload_entry_atomic_witness :
    (∃ r, async_unload_entry true [("a", 1), ("b", 2)] "a" = some (true, r) ∧
      r.lookup "a" = none ∧ ∀ k, k ≠ "a" → r.lookup k = [("a", 1), ("b", 2)].lookup k) ∧
    async_unload_entry false [("a", 1), ("b", 2)] "a" = some (false, [("a", 1), ("b", 2)]) :=
  async_unload_entry_atomic [("a", 1), ("b", 2)] "a" (by simp) rfl

end FreeSleep
